import Mathlib

/-!
Shallow embedding of the gassybot repository (bot.py, check_config.py,
health_check.py) and proofs about its specified behaviour.

Python dicts preserve insertion order, so a price mapping is embedded as an
association list `List (String × ℚ)` in insertion order.  Python floats on the
values actually used here (dollar amounts with at most a few decimal digits)
are embedded as exact rationals.  Points where the running program can raise an
exception, or where the outside world answers (the random draws of
`random.uniform`, channel resolution, the outcome of a network send), are made
explicit inputs of the embedded functions.
-/

namespace Gassy

attribute [local semireducible] Rat.add Rat.mul Rat.inv Rat.sub

/-- Round-half-to-even as Python applies it to a rational, the rounding used by
`round(x, 2)` and by the `:.2f` format spec (on the exact decimal values that
occur in this program). -/
def roundHalfEven (q : ℚ) : ℤ :=
  if q - (⌊q⌋ : ℚ) < 1/2 then ⌊q⌋
  else if 1/2 < q - (⌊q⌋ : ℚ) then ⌊q⌋ + 1
  else if ⌊q⌋ % 2 = 0 then ⌊q⌋ else ⌊q⌋ + 1

/-- `round(x, 2)` from bot.py line 75. -/
def round2 (q : ℚ) : ℚ := (roundHalfEven (q * 100) : ℚ) / 100

/-- Rendering of the format spec `:.2f` for the non-negative amounts this
program displays. -/
def format2f (q : ℚ) : String :=
  let c := roundHalfEven (q * 100)
  let whole := c / 100
  let cents := (c % 100).toNat
  toString whole ++ "." ++ (if cents < 10 then "0" else "") ++ toString cents

/-- One field of a Discord embed, as built by `embed.add_field` in
`create_price_embed` (bot.py lines 200-204). -/
structure EmbedField where
  name : String
  value : String
  inline : Bool
deriving Repr, DecidableEq

/-- The observable parts of the `discord.Embed` built by `create_price_embed`
(title, description, ordered field list, footer). -/
structure Embed where
  title : String
  description : String
  fields : List EmbedField
  footer : String
deriving Repr, DecidableEq

/-- The emoji lookup `{...}.get(fuel_type, default)` of bot.py lines 193-198.
The string literals are exactly the (mojibake) characters stored in the
source file. -/
def fuel_emoji (fuel_type : String) : String :=
  if fuel_type = "Regular" then "üü¢"
  else if fuel_type = "Mid-Grade" then "üü°"
  else if fuel_type = "Premium" then "üî¥"
  else if fuel_type = "Diesel" then "üü§"
  else "‚õΩ"

/-- `GassyBot.create_price_embed` (bot.py lines 178-207).  The field list is
built by iterating `prices.items()` in insertion order; the timestamp and the
embed colour are omitted as presentation plumbing not referenced by any
claim. -/
def create_price_embed (prices : List (String × ℚ)) (area : String)
    (auto_update : Bool := false) : Embed :=
  let title := "‚õΩ Current Gas Prices" ++
    (if auto_update then " (Auto Update)" else "")
  { title := title
    description := "üìç **" ++ area ++ "**"
    fields := prices.map fun p =>
      { name := fuel_emoji p.1 ++ " " ++ p.1
        value := "**$" ++ format2f p.2 ++ "**/gal"
        inline := true }
    footer := "Prices are estimates and may vary by station" }

/-- `base_prices` of `fetch_gas_prices` (bot.py lines 64-69):
Regular 3.45, Mid-Grade 3.75, Premium 4.05, Diesel 3.89. -/
def base_prices : List (String × ℚ) :=
  [("Regular", 69/20), ("Mid-Grade", 15/4), ("Premium", 81/20), ("Diesel", 389/100)]

/-- The fallback quote returned by the `except` branch of `fetch_gas_prices`
(bot.py lines 86-91): Regular 3.50, Mid-Grade 3.80, Premium 4.10, Diesel 3.95. -/
def fallback_prices : List (String × ℚ) :=
  [("Regular", 7/2), ("Mid-Grade", 19/5), ("Premium", 41/10), ("Diesel", 79/20)]

/-- `GasPriceService.fetch_gas_prices` (bot.py lines 50-91).
`internalFailure` injects an exception anywhere inside the `try` block (the
`except Exception` branch then returns the fallback quote); `variation` gives
the draw of `random.uniform(-0.20, 0.20)` for each fuel type.  The function is
total: no exception escapes its boundary. -/
def fetch_gas_prices (internalFailure : Bool) (variation : String → ℚ) :
    List (String × ℚ) :=
  if internalFailure then fallback_prices
  else base_prices.map fun p => (p.1, round2 (p.2 + variation p.1))

/-- Configuration read by `GassyBot.__init__` (bot.py lines 107-110), parsed
once from the environment at construction.  `target_channel_id = 0` encodes an
unset `DISCORD_CHANNEL_ID` (the code defaults the string to 0 before `int`). -/
structure BotConfig where
  target_channel_id : Nat
  area : String
  update_interval_hours : Nat
deriving Repr, DecidableEq

/-- A send destination: the configured channel (scheduled path) or the
invoking conversation `ctx` of a command (on-demand path).  These are
distinct identity spaces. -/
inductive Target where
  | channel (id : Nat)
  | conversation (id : Nat)
deriving Repr, DecidableEq

/-- A message payload: an embed or plain text. -/
inductive Content where
  | embedMsg (e : Embed)
  | text (s : String)
deriving Repr, DecidableEq

/-- Observable effects of one run of a handler: log records and send calls. -/
inductive Action where
  | logInfo (msg : String)
  | logWarning (msg : String)
  | logError (msg : String)
  | send (target : Target) (content : Content)
deriving Repr, DecidableEq

def isSendAction : Action → Bool
  | .send _ _ => true
  | _ => false

/-- The outside world as seen by one firing of `price_updater`:
`channel` is the result of `self.get_channel(target_channel_id)` (the resolved
name of the resolved channel, or `none` when unavailable); `sessionFailure` injects an
exception raised while entering the gas-service session (`async with`);
`fetchFailure`/`variation` are the inputs of `fetch_gas_prices`;
`sendFailure` injects an exception raised by `channel.send`. -/
structure TickWorld where
  channel : Option String
  sessionFailure : Option String
  fetchFailure : Bool
  variation : String → ℚ
  sendFailure : Option String

/-- The body of the `try` block of `GassyBot.price_updater` (bot.py lines
152-166).  First component: the actions performed; second component: an
exception escaping the `try` block, or `none` when the body returned
(early or normally). -/
def tick_body (bot : BotConfig) (w : TickWorld) : List Action × Option String :=
  if bot.target_channel_id = 0 then
    ([.logWarning "No target channel configured for automatic updates"], none)
  else
    match w.channel with
    | none =>
      ([.logError ("Could not find target channel " ++ toString bot.target_channel_id)],
       none)
    | some chName =>
      match w.sessionFailure with
      | some e => ([], some e)
      | none =>
        let prices := fetch_gas_prices w.fetchFailure w.variation
        let embed := create_price_embed prices bot.area true
        match w.sendFailure with
        | some e => ([.send (.channel bot.target_channel_id) (.embedMsg embed)], some e)
        | none =>
          ([.send (.channel bot.target_channel_id) (.embedMsg embed),
            .logInfo ("Posted automatic price update to #" ++ chName)], none)

/-- `GassyBot.price_updater` (bot.py lines 149-169): the tick body wrapped in
the per-cycle `except Exception` handler, which logs the error and swallows
it.  The second component is an exception escaping the whole tick; the
handler leaves it `none` in every case. -/
def price_updater (bot : BotConfig) (w : TickWorld) : List Action × Option String :=
  match tick_body bot w with
  | (acts, none) => (acts, none)
  | (acts, some e) => (acts ++ [.logError ("Error in price updater: " ++ e)], none)

/-- The repeating-timer machinery of `discord.ext.tasks.Loop` driving
`price_updater`: each scheduled fire runs the coroutine once; an exception
escaping the coroutine stops the loop (the task machinery disarms on an
unhandled error), while a normal return leaves the timer armed for the next
period.  Returns (number of ticks that fired, whether the timer is still
armed afterwards). -/
def run_loop (bot : BotConfig) : List TickWorld → Nat × Bool
  | [] => (0, true)
  | w :: ws =>
    match (price_updater bot w).2 with
    | some _ => (1, false)
    | none =>
      let rest := run_loop bot ws
      (rest.1 + 1, rest.2)

/-- The outside world as seen by one invocation of the `!gas prices` command
(`get_prices`): the invoking conversation (`ctx.channel`), an exception
injected while entering the gas-service session, the fetch inputs, and an
exception injected by the `ctx.send` of the embed. -/
structure CommandEnv where
  conversation : Nat
  sessionFailure : Option String
  fetchFailure : Bool
  variation : String → ℚ
  sendFailure : Option String

/-- The apology text of bot.py line 222 (exact characters of the source,
the apostrophe written as an escape). -/
def apology_text : String :=
  "‚ùå Sorry, I couldn\x27t fetch the gas prices right now. Please try again later."

/-- `GassyBot.get_prices` (bot.py lines 209-222): the manual command handler.
Every send goes to `ctx`, the invoking conversation; a failure anywhere in
the `try` block is caught, logged and answered with the apology message, so
the handler itself never lets an exception escape. -/
def get_prices (bot : BotConfig) (env : CommandEnv) : List Action × Option String :=
  let inner : List Action × Option String :=
    match env.sessionFailure with
    | some e => ([], some e)
    | none =>
      let prices := fetch_gas_prices env.fetchFailure env.variation
      let embed := create_price_embed prices bot.area false
      match env.sendFailure with
      | some e => ([.send (.conversation env.conversation) (.embedMsg embed)], some e)
      | none =>
        ([.send (.conversation env.conversation) (.embedMsg embed),
          .logInfo "Manual price request"], none)
  match inner with
  | (acts, none) => (acts, none)
  | (acts, some e) =>
    (acts ++ [.logError ("Error getting prices: " ++ e),
      .send (.conversation env.conversation) (.text apology_text)], none)

/-- Whether the pipeline of one `get_prices` invocation failed somewhere. -/
def cmdFailed (env : CommandEnv) : Bool :=
  env.sessionFailure.isSome || env.sendFailure.isSome

/-- Truthiness of the result of `os.getenv` in Python: `None` and the empty string
are falsy. -/
def pyTruthy : Option String → Bool
  | none => false
  | some s => !s.isEmpty

/-- Process-level outcome of running `python bot.py`. -/
structure MainOutcome where
  exitCode : Nat
  startCalled : Bool
  loggedError : Bool
deriving Repr, DecidableEq

/-- `main` of bot.py (lines 269-294) together with the `asyncio.run(main())`
entry point: when `DISCORD_TOKEN` is missing or empty, `main` logs an error
and returns `None`, so the interpreter finishes normally with exit status 0
and `bot.start` is never called; otherwise `bot.start(token)` is invoked
(every later failure is caught, so that path also ends with status 0 after
cleanup). -/
def bot_main (env : String → Option String) : MainOutcome :=
  if pyTruthy (env "DISCORD_TOKEN") then
    { exitCode := 0, startCalled := true, loggedError := false }
  else
    { exitCode := 0, startCalled := false, loggedError := true }

/-- Observable events in the life of the scheduled loop. -/
inductive LifeEvent where
  | readyResolved
  | changeInterval (hours : Nat)
  | tick (index : Nat)
  | sleep (hours : Nat)
deriving Repr, DecidableEq

/-- The tick/sleep alternation of a running `discord.ext.tasks.Loop`:
iteration `i` runs, then the loop sleeps for the interval in force before the
next iteration. -/
def run_events (cfg : BotConfig) (i : Nat) : Nat → List LifeEvent
  | 0 => []
  | n + 1 =>
    .tick i :: .sleep cfg.update_interval_hours :: run_events cfg (i + 1) n

/-- The event trace of the scheduled loop observed for `n` iterations.
`tasks.Loop` runs the `before_loop` hook exactly once before the first
iteration, and `GassyBot.before_price_updater` (bot.py lines 171-176) first
awaits `wait_until_ready` and then calls
`change_interval(hours=self.update_interval_hours)`; the iterations follow,
spaced by the interval in force. -/
def loop_trace (cfg : BotConfig) (n : Nat) : List LifeEvent :=
  .readyResolved :: .changeInterval cfg.update_interval_hours :: run_events cfg 0 n

def evIsChange : LifeEvent → Bool
  | .changeInterval _ => true
  | _ => false

def evIsTick : LifeEvent → Bool
  | .tick _ => true
  | _ => false

/-- Char-list substring test embedding the Python membership test `needle in hay`. -/
def strContainsAux (needle : List Char) : List Char → Bool
  | [] => needle.isEmpty
  | c :: t => needle.isPrefixOf (c :: t) || strContainsAux needle t

def strContains (hay needle : String) : Bool := strContainsAux needle.data hay.data

/-- Per-variable test of `check_config.check_required_vars` (check_config.py
line 39): a variable is properly configured unless its value is unset, empty,
the literal placeholder `your_<var>_here`, or contains `your_`. -/
def properly_configured (var : String) (value : Option String) : Bool :=
  match value with
  | none => false
  | some v =>
    !v.isEmpty && !(v = "your_" ++ var.toLower ++ "_here") && !strContains v "your_"

/-- The required-variable names of check_config.py lines 30-33. -/
def required_vars : List String := ["DISCORD_BOT_TOKEN", "DISCORD_CHANNEL_ID"]

/-- `check_config.check_required_vars` (lines 28-51): True iff every required
variable is properly configured. -/
def check_required_vars (env : String → Option String) : Bool :=
  required_vars.all fun v => properly_configured v (env v)

/-- Python `str.startswith`. -/
def py_startswith (s p : String) : Bool := p.data.isPrefixOf s.data

/-- Python `str.isdigit` on the ASCII channel-id strings this program
checks. -/
def py_isdigit (s : String) : Bool := !s.isEmpty && s.data.all Char.isDigit

/-- The condition `channel_id and channel_id.isdigit()` of health_check.py
line 26. -/
def channel_ok : Option String → Bool
  | none => false
  | some s => !s.isEmpty && py_isdigit s

/-- The process environment observed by health_check.py: the two environment
variables, the Python version (the comparison `sys.version_info >= (3, 8)`
and the display string), and the two file-presence probes. -/
structure HealthEnv where
  discordToken : Option String
  discordChannelId : Option String
  pythonVersionOk : Bool
  pythonVersion : String
  botPyAccessible : Bool
  requirementsTxtExists : Bool

/-- `health_check.health_check` (health_check.py lines 14-49): the ordered
list of check lines, with the exact source literals. -/
def health_check (e : HealthEnv) : List String :=
  (if pyTruthy e.discordToken then "✅ DISCORD_TOKEN configured"
   else "❌ DISCORD_TOKEN missing") ::
  (if channel_ok e.discordChannelId then "✅ DISCORD_CHANNEL_ID configured"
   else "⚠️  DISCORD_CHANNEL_ID not configured (auto-updates disabled)") ::
  (if e.pythonVersionOk then "✅ Python " ++ e.pythonVersion ++ " (compatible)"
   else "❌ Python " ++ e.pythonVersion ++ " (requires 3.8+)") ::
  (if e.botPyAccessible then "✅ bot.py accessible"
   else "❌ bot.py not found or not readable") ::
  (if e.requirementsTxtExists then "✅ requirements.txt found"
   else "❌ requirements.txt missing") :: []

/-- `failures` of health_check.main (line 62). -/
def hc_failures (e : HealthEnv) : Nat :=
  ((health_check e).filter fun c => py_startswith c "❌").length

/-- `warnings` of health_check.main (line 63). -/
def hc_warnings (e : HealthEnv) : Nat :=
  ((health_check e).filter fun c => py_startswith c "⚠️").length

/-- `health_check.main` (lines 51-75): exit code 1 when any check line starts
with the error mark, else 0 (warnings alone still give 0). -/
def hc_main (e : HealthEnv) : Nat :=
  if hc_failures e > 0 then 1
  else if hc_warnings e > 0 then 0
  else 0

/-! Concrete inputs used by individual theorems. -/

/-- The price set of the sortedness claim: Regular 3.45, Mid-Grade 3.75,
Premium 4.05, Diesel 3.85, in the insertion order used by the dict
`base_prices` dict. -/
def claim_prices : List (String × ℚ) :=
  [("Regular", 69/20), ("Mid-Grade", 15/4), ("Premium", 81/20), ("Diesel", 77/20)]

/-- A configuration with a configured channel. -/
def bot6 : BotConfig :=
  { target_channel_id := 1234, area := "10001", update_interval_hours := 6 }

/-- A configuration with no channel configured (unset `DISCORD_CHANNEL_ID`). -/
def bot0 : BotConfig :=
  { target_channel_id := 0, area := "10001", update_interval_hours := 6 }

/-- A tick whose channel resolution comes back unavailable and whose pipeline
would otherwise succeed. -/
def world_unresolved : TickWorld :=
  { channel := none, sessionFailure := none, fetchFailure := false,
    variation := fun _ => 0, sendFailure := none }

/-- A tick world whose pipeline raises inside the gas-service session. -/
def world_failing : TickWorld :=
  { channel := some "gas-prices", sessionFailure := some "boom",
    fetchFailure := false, variation := fun _ => 0, sendFailure := none }

/-- An on-demand invocation whose pipeline raises inside the session. -/
def env_fail : CommandEnv :=
  { conversation := 42, sessionFailure := some "boom", fetchFailure := false,
    variation := fun _ => 0, sendFailure := none }

/-- A configuration whose configured interval differs from the placeholder
6 hours of the `tasks.loop` decorator. -/
def cfg8 : BotConfig :=
  { target_channel_id := 1234, area := "10001", update_interval_hours := 3 }

/-- The environment of the credential-name claim: `DISCORD_BOT_TOKEN` holds a
valid token while `DISCORD_TOKEN` is unset. -/
def env9 : String → Option String :=
  fun v => if v = "DISCORD_BOT_TOKEN" then some "abc123token" else none

/-- A deployment with a token, no channel id, and everything else present. -/
def e10 : HealthEnv :=
  { discordToken := some "abc123token", discordChannelId := none,
    pythonVersionOk := true, pythonVersion := "3.11.0",
    botPyAccessible := true, requirementsTxtExists := true }

/-! Helper lemmas (shared, not tied to any one claim). -/

theorem roundHalfEven_bounds (q : ℚ) :
    q - 1/2 ≤ (roundHalfEven q : ℚ) ∧ (roundHalfEven q : ℚ) ≤ q + 1/2 := by
  have h1 : (⌊q⌋ : ℚ) ≤ q := Int.floor_le q
  have h2 : q < (⌊q⌋ : ℚ) + 1 := Int.lt_floor_add_one q
  unfold roundHalfEven
  split_ifs <;> constructor <;> push_cast <;> linarith

theorem round2_bounds (q : ℚ) : q - 1/200 ≤ round2 q ∧ round2 q ≤ q + 1/200 := by
  obtain ⟨h1, h2⟩ := roundHalfEven_bounds (q * 100)
  unfold round2
  constructor
  · rw [le_div_iff₀ (by norm_num : (0:ℚ) < 100)]; linarith
  · rw [div_le_iff₀ (by norm_num : (0:ℚ) < 100)]; linarith

theorem price_updater_snd_none (bot : BotConfig) (w : TickWorld) :
    (price_updater bot w).2 = none := by
  unfold price_updater
  rcases h : tick_body bot w with ⟨acts, exc⟩
  cases exc <;> simp

theorem run_loop_armed (bot : BotConfig) (ws : List TickWorld) :
    run_loop bot ws = (ws.length, true) := by
  induction ws with
  | nil => rfl
  | cons w ws ih => simp [run_loop, price_updater_snd_none bot w, ih]

/-! Claim theorems. -/

/-- Claim C1, counterexample: on the very inputs of the claim (area 10001, base
prices Regular 3.45, Mid-Grade 3.75, Premium 4.05, Diesel 3.85, zero
variation), `create_price_embed` renders the four fields with displayed
prices 3.45, 3.75, 4.05, 3.85 — not non-decreasing — and the field order is
the insertion order Regular, Mid-Grade, Premium, Diesel, not the claimed
price-ascending Regular, Mid-Grade, Diesel, Premium. -/
theorem create_price_embed_not_sorted :
    ((create_price_embed claim_prices "10001" false).fields.map EmbedField.value =
      ["**$3.45**/gal", "**$3.75**/gal", "**$4.05**/gal", "**$3.85**/gal"]) ∧
    ¬((create_price_embed claim_prices "10001" false).fields.map EmbedField.name =
      [fuel_emoji "Regular" ++ " Regular", fuel_emoji "Mid-Grade" ++ " Mid-Grade",
       fuel_emoji "Diesel" ++ " Diesel", fuel_emoji "Premium" ++ " Premium"]) := by
  decide

/-- Claim C1, amended: `create_price_embed` performs no sort — it emits one
field per entry in the insertion order of the price mapping — and on the
inputs of the claim (and on the zero-variation run of the fetch) the resulting
order is Regular, Mid-Grade, Premium, Diesel. -/
theorem create_price_embed_insertion_order (prices : List (String × ℚ))
    (area : String) (auto_update : Bool) :
    ((create_price_embed prices area auto_update).fields.map EmbedField.name =
      prices.map fun p => fuel_emoji p.1 ++ " " ++ p.1) ∧
    ((create_price_embed claim_prices "10001" false).fields.map EmbedField.name =
      [fuel_emoji "Regular" ++ " Regular", fuel_emoji "Mid-Grade" ++ " Mid-Grade",
       fuel_emoji "Premium" ++ " Premium", fuel_emoji "Diesel" ++ " Diesel"]) ∧
    ((create_price_embed (fetch_gas_prices false fun _ => 0) "10001" true).fields.map
        EmbedField.name =
      [fuel_emoji "Regular" ++ " Regular", fuel_emoji "Mid-Grade" ++ " Mid-Grade",
       fuel_emoji "Premium" ++ " Premium", fuel_emoji "Diesel" ++ " Diesel"]) := by
  refine ⟨?_, by decide, by decide⟩
  simp [create_price_embed]

/-- Claim C2, counterexample: with every environment variable absent, `main`
never calls `bot.start` (no connection attempt) but the process finishes with
exit status 0, refuting the claimed nonzero exit status. -/
theorem bot_main_missing_token_exit_zero :
    (bot_main fun _ => none).startCalled = false ∧
    (bot_main fun _ => none).exitCode = 0 := by
  decide

/-- Claim C2, amended: whenever `DISCORD_TOKEN` is missing or empty, `main`
logs the error and returns without ever calling `bot.start`, and the process
exits with status 0 (not nonzero). -/
theorem bot_main_missing_token (env : String → Option String)
    (h : pyTruthy (env "DISCORD_TOKEN") = false) :
    bot_main env = { exitCode := 0, startCalled := false, loggedError := true } := by
  simp [bot_main, h]

/-- Claim C2, witness: the amended theorem applied to the empty
environment. -/
theorem bot_main_missing_token_witness :
    bot_main (fun _ => none) =
      { exitCode := 0, startCalled := false, loggedError := true } :=
  bot_main_missing_token (fun _ => none) (by decide)

/-- Claim C3, counterexample: on the empty price set the formatter returns
the ordinary embed (same title as in the non-empty case) whose field list is
empty — there is no fixed "unable to fetch" message and the zero-entries case
is exactly the accidental empty loop the claim rules out. -/
theorem create_price_embed_empty_cex :
    (create_price_embed [] "10001" false).fields = [] ∧
    (create_price_embed [] "10001" false).title =
      (create_price_embed base_prices "10001" false).title := by
  decide

/-- Claim C3, amended: for every area and mode, the formatter maps the empty
price set to an embed with the ordinary title and footer and an empty field
list; no unable-to-fetch text exists in the formatter (the only apology text
in the program is sent by the failure handler of the on-demand command). -/
theorem create_price_embed_empty (area : String) (auto_update : Bool) :
    (create_price_embed [] area auto_update).fields = [] ∧
    (create_price_embed [] area auto_update).title =
      (create_price_embed base_prices area auto_update).title ∧
    (create_price_embed [] area auto_update).footer =
      (create_price_embed base_prices area auto_update).footer := by
  simp [create_price_embed]

/-- Claim C5: `fetch_gas_prices` is total — an internal failure anywhere in
its `try` block is caught and answered with the fixed documented fallback
quote — and, for variation draws within the `random.uniform(-0.20, 0.20)`
range, every price it returns (normal or fallback) is non-negative and
bounded by 4.5 dollars. -/
theorem fetch_gas_prices_contract (internalFailure : Bool)
    (variation : String → ℚ) (hv : ∀ t, |variation t| ≤ 1/5) :
    (internalFailure = true →
      fetch_gas_prices internalFailure variation = fallback_prices) ∧
    ∀ p ∈ fetch_gas_prices internalFailure variation, 0 ≤ p.2 ∧ p.2 ≤ 9/2 := by
  constructor
  · intro h; simp [fetch_gas_prices, h]
  · cases internalFailure with
    | true =>
      have h : fetch_gas_prices true variation = fallback_prices := rfl
      rw [h]; decide
    | false =>
      intro p hp
      simp only [fetch_gas_prices, Bool.false_eq_true, if_false, List.mem_map,
        base_prices] at hp
      obtain ⟨a, ha, rfl⟩ := hp
      obtain ⟨hr1, hr2⟩ := round2_bounds (a.2 + variation a.1)
      have hva := abs_le.mp (hv a.1)
      fin_cases ha <;> constructor <;> simp_all <;> linarith [hva.1, hva.2]

/-- Claim C5, witness: the contract applied to the zero-variation,
no-failure run, evaluated at the Regular entry. -/
theorem fetch_gas_prices_contract_witness :
    0 ≤ (("Regular", (69:ℚ)/20)).2 ∧ (("Regular", (69:ℚ)/20)).2 ≤ 9/2 :=
  (fetch_gas_prices_contract false (fun _ => 0)
      (fun _ => show |(0:ℚ)| ≤ 1/5 by decide)).2
    ("Regular", 69/20) (by decide)

/-- Claim C4: the per-cycle `except Exception` of `price_updater` swallows
every failure of the fetch → format → send pipeline — no run of the tick lets
an exception escape — so the task loop fires exactly once per scheduled tick
and the timer is still armed afterwards, whatever each cycle meets; in
particular after any number of consecutive failing cycles the next tick still
fires. -/
theorem price_updater_failure_containment (bot : BotConfig)
    (ws : List TickWorld) (n : Nat) :
    (∀ w, (price_updater bot w).2 = none) ∧
    run_loop bot ws = (ws.length, true) ∧
    run_loop bot (List.replicate n world_failing ++ ws) = (n + ws.length, true) := by
  refine ⟨price_updater_snd_none bot, run_loop_armed bot ws, ?_⟩
  rw [run_loop_armed bot (List.replicate n world_failing ++ ws)]
  simp [List.length_append, List.length_replicate]

/-- Claim C6, counterexample: when the configured channel fails to resolve,
the only action of the tick is a `logger.error` record — not the claimed warning
(the warning is reserved for the unconfigured-channel branch). -/
theorem price_updater_unavailable_logs_error :
    (price_updater bot6 world_unresolved).1 =
      [Action.logError "Could not find target channel 1234"] := by
  decide

/-- Claim C6, amended: when no channel is configured the tick logs a warning,
and when the configured channel fails to resolve it logs an error; in both
cases the tick performs no send call and returns normally (a recoverable
skip), and the loop stays armed and fires the next tick one period later. -/
theorem price_updater_unavailable_skip (bot : BotConfig) (w : TickWorld)
    (ws : List TickWorld) (h : bot.target_channel_id = 0 ∨ w.channel = none) :
    (bot.target_channel_id = 0 →
      (price_updater bot w).1 =
        [Action.logWarning "No target channel configured for automatic updates"]) ∧
    (bot.target_channel_id ≠ 0 → w.channel = none →
      (price_updater bot w).1 =
        [Action.logError ("Could not find target channel " ++
          toString bot.target_channel_id)]) ∧
    (∀ a ∈ (price_updater bot w).1, isSendAction a = false) ∧
    (price_updater bot w).2 = none ∧
    run_loop bot (w :: ws) = (ws.length + 1, true) := by
  have hacts :
      (price_updater bot w).1 =
        [Action.logWarning "No target channel configured for automatic updates"] ∨
      (price_updater bot w).1 =
        [Action.logError ("Could not find target channel " ++
          toString bot.target_channel_id)] := by
    rcases h with h | h
    · left; simp [price_updater, tick_body, h]
    · by_cases h0 : bot.target_channel_id = 0
      · left; simp [price_updater, tick_body, h0]
      · right; simp [price_updater, tick_body, h0, h]
  refine ⟨?_, ?_, ?_, price_updater_snd_none bot w, ?_⟩
  · intro h0; simp [price_updater, tick_body, h0]
  · intro h0 hc; simp [price_updater, tick_body, h0, hc]
  · rcases hacts with hacts | hacts <;> rw [hacts] <;>
      intro a ha <;> simp only [List.mem_singleton] at ha <;> subst ha <;> rfl
  · rw [run_loop_armed bot (w :: ws)]; rfl

/-- Claim C6, witness: the amended theorem applied to both branches — the
unconfigured-channel tick produces exactly the warning record, the
unresolved-channel tick produces exactly the error record, neither action is
a send, and a one-tick follow-up run still fires. -/
theorem price_updater_unavailable_skip_witness :
    (price_updater bot0 world_unresolved).1 =
      [Action.logWarning "No target channel configured for automatic updates"] ∧
    (price_updater bot6 world_unresolved).1 =
      [Action.logError ("Could not find target channel " ++
        toString bot6.target_channel_id)] ∧
    isSendAction (Action.logError "Could not find target channel 1234") = false ∧
    run_loop bot6 [world_unresolved] = (1, true) :=
  ⟨(price_updater_unavailable_skip bot0 world_unresolved [] (Or.inl rfl)).1 rfl,
   (price_updater_unavailable_skip bot6 world_unresolved [] (Or.inr rfl)).2.1
     (by decide) rfl,
   (price_updater_unavailable_skip bot6 world_unresolved [] (Or.inr rfl)).2.2.1
     (Action.logError "Could not find target channel 1234") (by decide),
   (price_updater_unavailable_skip bot6 world_unresolved [] (Or.inr rfl)).2.2.2.2⟩

/-- Claim C7: every send the on-demand handler performs targets the invoking
conversation — never the configured channel — at least one send is always
produced, the handler never lets an exception escape, and on any pipeline
failure the apology message is among the sends, so a failure is reported to
the caller rather than silently dropped. -/
theorem get_prices_replies_to_invoker (bot : BotConfig) (env : CommandEnv) :
    (∀ t c, Action.send t c ∈ (get_prices bot env).1 →
      t = Target.conversation env.conversation) ∧
    1 ≤ (get_prices bot env).1.countP isSendAction ∧
    (get_prices bot env).2 = none ∧
    (cmdFailed env = true →
      Action.send (Target.conversation env.conversation)
          (Content.text apology_text) ∈ (get_prices bot env).1) := by
  rcases env with ⟨conv, sf, ff, v, sdf⟩
  rcases sf with _ | e <;> rcases sdf with _ | e2 <;>
    simp_all [get_prices, cmdFailed, isSendAction, List.countP, List.countP.go]
  rintro t c (⟨ht, _⟩ | ⟨ht, _⟩) <;> exact ht

/-- Claim C7, witness: the theorem applied to a failing invocation; the
apology is sent to the invoking conversation. -/
theorem get_prices_replies_to_invoker_witness :
    Action.send (Target.conversation 42) (Content.text apology_text) ∈
      (get_prices bot6 env_fail).1 :=
  (get_prices_replies_to_invoker bot6 env_fail).2.2.2 rfl

/-- Claim C8: in the event trace of the loop, `change_interval` occurs exactly
once; the trace starts with the readiness resolution followed immediately by
that single `change_interval` (to the configured hours); every tick sits
strictly after both; and every sleep between iterations uses the configured
interval, not the placeholder of the decorator. -/
theorem change_interval_once_before_first_tick (cfg : BotConfig) (n : Nat) :
    (loop_trace cfg n).countP evIsChange = 1 ∧
    (loop_trace cfg n)[0]? = some LifeEvent.readyResolved ∧
    (loop_trace cfg n)[1]? = some (LifeEvent.changeInterval cfg.update_interval_hours) ∧
    (∀ k e, (loop_trace cfg n)[k]? = some e → evIsTick e = true → 2 ≤ k) ∧
    (∀ h, LifeEvent.sleep h ∈ loop_trace cfg n → h = cfg.update_interval_hours) := by
  have hchange : ∀ m i, (run_events cfg i m).countP evIsChange = 0 := by
    intro m
    induction m with
    | zero => intro i; rfl
    | succ m ih =>
      intro i
      simp [run_events, List.countP_cons, ih (i + 1), evIsChange]
  have hsleep : ∀ m i h, LifeEvent.sleep h ∈ run_events cfg i m →
      h = cfg.update_interval_hours := by
    intro m
    induction m with
    | zero => intro i h hm; simp [run_events] at hm
    | succ m ih =>
      intro i h hm
      simp only [run_events, List.mem_cons] at hm
      rcases hm with hm | hm | hm
      · exact absurd hm (by simp)
      · exact (LifeEvent.sleep.injEq _ _).mp hm
      · exact ih (i + 1) h hm
  refine ⟨?_, by simp [loop_trace], by simp [loop_trace], ?_, ?_⟩
  · simp [loop_trace, List.countP_cons, evIsChange, hchange n 0]
  · intro k e hk ht
    match k with
    | 0 =>
      simp only [loop_trace, List.getElem?_cons_zero, Option.some.injEq] at hk
      subst hk; simp [evIsTick] at ht
    | 1 =>
      simp only [loop_trace, List.getElem?_cons_succ, List.getElem?_cons_zero,
        Option.some.injEq] at hk
      subst hk; simp [evIsTick] at ht
    | k + 2 => omega
  · intro h hm
    simp only [loop_trace, List.mem_cons] at hm
    rcases hm with hm | hm | hm
    · exact absurd hm (by simp)
    · exact absurd hm (by simp)
    · exact hsleep n 0 h hm

/-- Claim C8, witness: the theorem applied to a configured 3-hour interval
and a two-iteration run: one `change_interval` event, and the tick found at
position 2 is indeed no earlier than position 2. -/
theorem change_interval_once_before_first_tick_witness :
    (loop_trace cfg8 2).countP evIsChange = 1 ∧ (2:Nat) ≤ 2 :=
  ⟨(change_interval_once_before_first_tick cfg8 2).1,
   (change_interval_once_before_first_tick cfg8 2).2.2.2.1 2 (LifeEvent.tick 0)
     (by decide) (by decide)⟩

/-- Claim C9: under `env9` — `DISCORD_BOT_TOKEN` set to a valid token while
`DISCORD_TOKEN` is unset — the per-variable test of the config checker reports the
token variable as properly configured, while `main` of the bot finds no
credential, logs the error and never calls `bot.start`. -/
theorem credential_names_disagree :
    properly_configured "DISCORD_BOT_TOKEN" (env9 "DISCORD_BOT_TOKEN") = true ∧
    env9 "DISCORD_TOKEN" = none ∧
    (bot_main env9).startCalled = false ∧
    (bot_main env9).loggedError = true := by
  decide

/-- The Python-version success line never starts with the error mark,
whatever the interpolated version string is. -/
theorem py_startswith_compat_line (v : String) :
    py_startswith ("✅ Python " ++ v ++ " (compatible)") "❌" = false := by
  rcases v with ⟨vdata⟩
  rfl

/-- Claim C10: `health_check.main` exits 1 exactly when some check line
starts with the error mark; a missing `DISCORD_CHANNEL_ID` produces only the
warning line, so with the token set, a compatible Python and both files
present, the health check still exits 0 when the channel id is absent. -/
theorem hc_main_exit_policy (e : HealthEnv) :
    (hc_main e = 1 ↔ 0 < hc_failures e) ∧
    (e.discordChannelId = none →
      "⚠️  DISCORD_CHANNEL_ID not configured (auto-updates disabled)" ∈
        health_check e) ∧
    (e.discordChannelId = none → pyTruthy e.discordToken = true →
      e.pythonVersionOk = true → e.botPyAccessible = true →
      e.requirementsTxtExists = true → hc_main e = 0) := by
  refine ⟨?_, ?_, ?_⟩
  · unfold hc_main
    split_ifs with h1 h2 <;> simp_all
  · intro hch
    simp [health_check, channel_ok, hch]
  · intro hch htok hpy hbot hreq
    have hf : hc_failures e = 0 := by
      have f1 : py_startswith "✅ DISCORD_TOKEN configured" "❌" = false := rfl
      have f2 : py_startswith
          "⚠️  DISCORD_CHANNEL_ID not configured (auto-updates disabled)"
          "❌" = false := rfl
      have f4 : py_startswith "✅ bot.py accessible" "❌" = false := rfl
      have f5 : py_startswith "✅ requirements.txt found" "❌" = false := rfl
      simp [hc_failures, health_check, hch, htok, hpy, hbot, hreq, channel_ok,
        List.filter, f1, f2, f4, f5, py_startswith_compat_line e.pythonVersion]
    simp [hc_main, hf]

/-- Claim C10, witness: the theorem applied to a deployment with a token, a
compatible Python, both files, and no channel id: exit code 0 and the warning
line present. -/
theorem hc_main_exit_policy_witness :
    hc_main e10 = 0 ∧
    "⚠️  DISCORD_CHANNEL_ID not configured (auto-updates disabled)" ∈
      health_check e10 :=
  ⟨(hc_main_exit_policy e10).2.2 rfl rfl rfl rfl rfl,
   (hc_main_exit_policy e10).2.1 rfl⟩

end Gassy
